import Mathlib

/-!
Verification of the incremental CO2 data pipeline.

Shallow embedding of the numeric UDFs, the harmonizer validation passes,
the merge stored procedures and the weekly analytics SQL of the
repository, with theorems checking the specified properties.

Numeric values are modelled as exact rationals (`ℚ`); SQL / Python NULL
(`None`) is modelled with `Option`.
-/

/-- Floor of a rational, computed with integer floor division
(`q.den` is always positive, so this is the mathematical floor). -/
def ratFloor (q : ℚ) : ℤ := Int.fdiv q.num q.den

theorem ratFloor_eq_floor (q : ℚ) : ratFloor q = ⌊q⌋ := by
  unfold ratFloor
  rw [Rat.floor_def]
  exact Int.fdiv_eq_ediv _ (Int.natCast_nonneg _)

/-- Python `round(q, 4)`: round to 4 decimal places, ties to even
(banker rounding), as used by `round(volatility, 4)` in
`udfs_and_spoc/python_udf/co2_volatility/function.py`. -/
def pyRound4 (q : ℚ) : ℚ :=
  (if q * 10000 - (ratFloor (q * 10000) : ℚ) < 1/2 then (ratFloor (q * 10000) : ℚ)
   else if 1/2 < q * 10000 - (ratFloor (q * 10000) : ℚ) then (ratFloor (q * 10000) : ℚ) + 1
   else if ratFloor (q * 10000) % 2 = 0 then (ratFloor (q * 10000) : ℚ)
   else (ratFloor (q * 10000) : ℚ) + 1) / 10000

theorem pyRound4_eq_of_floor (q : ℚ) (f : ℤ) (hf : ⌊q * 10000⌋ = f)
    (hr : q * 10000 - (f : ℚ) < 1/2) : pyRound4 q = (f : ℚ) / 10000 := by
  unfold pyRound4
  rw [ratFloor_eq_floor, hf, if_pos hr]

theorem pyRound4_zero : pyRound4 0 = 0 := by
  unfold pyRound4
  rw [ratFloor_eq_floor]
  norm_num

/-- Snowflake `ROUND(q, 3)`: round to 3 decimal places, ties away from
zero, as used in the weekly analytics SQL of
`scripts/co2_analytical_sp/co2_analytical_sp/function.py`. -/
def sqlRound3 (q : ℚ) : ℚ :=
  (if 0 ≤ q * 1000 then (ratFloor (q * 1000 + 1/2) : ℚ)
   else -(ratFloor (-(q * 1000) + 1/2) : ℚ)) / 1000

theorem sqlRound3_eq_of_floor (q : ℚ) (f : ℤ) (h0 : 0 ≤ q * 1000)
    (hf : ⌊q * 1000 + 1/2⌋ = f) : sqlRound3 q = (f : ℚ) / 1000 := by
  unfold sqlRound3
  rw [ratFloor_eq_floor, hf, if_pos h0]

/-- A Python value passed to the percent-change UDF: `None`, a numeric
value (anything `float()` coerces), or a non-numeric value on which
`float()` raises. -/
inductive PyVal where
  | none
  | num (q : ℚ)
  | nonnum
deriving DecidableEq

/-- `co2_percent_change` from
`scripts/daily_co2_changes/daily_changes/function.py`:
returns 0.0 when either input is `None`, when `float()` coercion of
either input fails, or when the previous value is zero; otherwise
`((curr - prev) / prev) * 100`. -/
def co2_percent_change (previous_value current_value : PyVal) : ℚ :=
  match previous_value, current_value with
  | .none, _ => 0
  | _, .none => 0
  | .nonnum, _ => 0
  | _, .nonnum => 0
  | .num prev, .num curr => if prev = 0 then 0 else ((curr - prev) / prev) * 100

/-- `co2_weekly_percent_change` from
`scripts/weekly_co2_changes/weekly_changes/function.py`, on SQL values
(numeric or NULL): returns 0.0 when either input is NULL or the
previous value is zero, else `((curr - prev) / prev) * 100`. -/
def co2_weekly_percent_change (previous_week_value current_value : Option ℚ) : ℚ :=
  match previous_week_value, current_value with
  | Option.none, _ => 0
  | _, Option.none => 0
  | some prev, some curr => if prev = 0 then 0 else ((curr - prev) / prev) * 100

/-- `calculate_co2_volatility` from
`udfs_and_spoc/python_udf/co2_volatility/function.py`: `None` when
either input is `None` or non-positive or the average is zero,
otherwise `|curr - prev| / ((curr + prev) / 2) * 100` rounded to 4
decimals. -/
def calculate_co2_volatility (current_value previous_value : Option ℚ) : Option ℚ :=
  match current_value, previous_value with
  | Option.none, _ => Option.none
  | _, Option.none => Option.none
  | some c, some p =>
    if c ≤ 0 ∨ p ≤ 0 then Option.none
    else if (c + p) / 2 = 0 then Option.none
    else some (pyRound4 (|c - p| / ((c + p) / 2) * 100))

/-- A stream action tag (`METADATA$ACTION`). -/
inductive MAction where
  | insert
  | update
  | delete
deriving DecidableEq

/-- One record read from `RAW_CO2.CO2_DATA_STREAM`, with the columns
selected in `merge_raw_into_harmonized` of
`scripts/co2_harmonized_sp/co2_harmonized_sp/function.py`. -/
structure StreamRec where
  year : ℤ
  month : ℤ
  day : ℤ
  decimalDate : ℚ
  co2Ppm : Option ℚ
  metadataAction : MAction
  metadataIsUpdate : Bool
  metadataRowId : String
deriving DecidableEq

/-- The `VALIDATION_STATUS` values assigned by the validation passes. -/
inductive VStatus where
  | valid
  | invalidDate
  | invalidCo2Value
  | duplicateDate
deriving DecidableEq

/-- A stream record together with its `VALIDATION_STATUS` column. -/
structure VRec where
  row : StreamRec
  status : VStatus
deriving DecidableEq

/-- The processing date (`datetime.date.today()`). -/
structure Today where
  year : ℤ
  month : ℤ
  day : ℤ
deriving DecidableEq

/-- The filter condition of `validate_timestamps` that keeps only
records not dated in the future. -/
def notFutureB (t : Today) (r : StreamRec) : Bool :=
  decide (r.year < t.year ∨ (r.year = t.year ∧ r.month < t.month) ∨
    (r.year = t.year ∧ r.month = t.month ∧ r.day ≤ t.day))

/-- The `F.when` condition of `validate_timestamps` under which a kept
record is labelled `VALID` rather than `INVALID_DATE`. -/
def validDateB (t : Today) (r : StreamRec) : Bool :=
  decide ((1950 < r.year ∧ r.year < t.year) ∨
    (r.year = t.year ∧ r.month ≤ t.month ∧ r.day ≤ t.day))

/-- `validate_timestamps` from
`scripts/co2_harmonized_sp/co2_harmonized_sp/function.py`: drop future
dates, drop years before 1950, then label the rest `VALID` or
`INVALID_DATE`. -/
def validate_timestamps (t : Today) (source : List StreamRec) : List VRec :=
  ((source.filter (fun r => notFutureB t r)).filter
      (fun r => decide (1950 ≤ r.year))).map
    (fun r => { row := r, status := if validDateB t r then .valid else .invalidDate })

/-- The `F.col("CO2_PPM").between(200, 500)` condition; a NULL
measurement does not match (SQL three-valued logic). -/
def ppmInRangeB : Option ℚ → Bool
  | some v => decide (200 ≤ v ∧ v ≤ 500)
  | Option.none => false

/-- `validate_data_consistency` from the same file: keep `VALID` only
when the concentration is in [200, 500], keep `INVALID_DATE`, and send
everything else to `INVALID_CO2_VALUE`. -/
def validate_data_consistency (source : List VRec) : List VRec :=
  source.map (fun v =>
    { row := v.row,
      status :=
        if ppmInRangeB v.row.co2Ppm ∧ v.status = VStatus.valid then VStatus.valid
        else if v.status = VStatus.invalidDate then VStatus.invalidDate
        else VStatus.invalidCo2Value })

/-- Two stream records agree on the duplicate key `(YEAR, MONTH, DAY)`. -/
def sameDateB (a b : StreamRec) : Bool :=
  decide (a.year = b.year ∧ a.month = b.month ∧ a.day = b.day)

/-- The per-date group size computed by the `groupBy().count()` join of
`check_duplicates`. -/
def dateCount (source : List VRec) (r : StreamRec) : ℕ :=
  source.countP (fun v => sameDateB v.row r)

/-- `check_duplicates` from the same file: a record whose date occurs
more than once is re-labelled `DUPLICATE_DATE`, but only when its
current status is `VALID`; otherwise the record is left unchanged. -/
def check_duplicates (source : List VRec) : List VRec :=
  source.map (fun v =>
    if 1 < dateCount source v.row ∧ v.status = VStatus.valid
    then { row := v.row, status := VStatus.duplicateDate }
    else v)

/-- The validation sequence applied by `merge_raw_into_harmonized`
(timestamps, then consistency, then duplicates, with no intermediate
filters). -/
def run_validations (t : Today) (source : List StreamRec) : List VRec :=
  check_duplicates (validate_data_consistency (validate_timestamps t source))

/-- The merge filter `VALIDATION_STATUS == "VALID"` applied to the
validated stream before the merge. -/
def valid_records (t : Today) (source : List StreamRec) : List VRec :=
  (run_validations t source).filter (fun v => decide (v.status = VStatus.valid))

/-- The per-run result dictionary returned by
`merge_raw_into_harmonized` in
`scripts/co2_harmonized_sp/co2_harmonized_sp/function.py`. -/
structure MergeResult where
  validRecordsProcessed : ℕ
  rowsInserted : ℕ
  rowsUpdated : ℕ
  invalidRecordsSkipped : ℕ
  error : Option String
deriving DecidableEq

/-- The fallible external calls made inside the `try` block of
`merge_raw_into_harmonized` (scripts variant): reading the stream,
checking and creating the target table, executing the merge (returning
per-statement `ROWS_INSERTED`/`ROWS_UPDATED` pairs), and the
stream-status query. Any of them may raise. -/
structure HSession where
  today : Today
  streamRows : Except String (List StreamRec)
  tableExistsQ : Except String Bool
  createTableQ : Except String Unit
  mergeExec : List VRec → Except String (List (ℕ × ℕ))
  streamHasDataQ : Except String Bool

/-- The `try` block of `merge_raw_into_harmonized`: select and filter
the stream, run the validation passes, filter the VALID rows, ensure
the target table, merge, count invalid rows, probe the stream, and
build the success result. -/
def merge_body (s : HSession) : Except String MergeResult := do
  let raw ← s.streamRows
  let source := raw.filter (fun r =>
    decide (r.metadataAction = MAction.insert ∨ r.metadataAction = MAction.update))
  let validated := run_validations s.today source
  let validSrc := valid_records s.today source
  let tblExists ← s.tableExistsQ
  let _ ← if tblExists then Except.ok () else s.createTableQ
  let mergeRows ← s.mergeExec validSrc
  let invalidCount := (validated.filter (fun v => decide (v.status ≠ VStatus.valid))).length
  let _ ← s.streamHasDataQ
  pure
    { validRecordsProcessed := validSrc.length,
      rowsInserted := (mergeRows.filter (fun p => decide (0 < p.1))).length,
      rowsUpdated := (mergeRows.filter (fun p => decide (0 < p.2))).length,
      invalidRecordsSkipped := invalidCount,
      error := Option.none }

/-- `merge_raw_into_harmonized` (scripts variant): the whole body is
wrapped in one `try`/`except`; on any exception the function returns
the error dictionary with all counts zero. -/
def merge_raw_into_harmonized (s : HSession) : MergeResult :=
  match merge_body s with
  | .ok r => r
  | .error e =>
    { validRecordsProcessed := 0, rowsInserted := 0, rowsUpdated := 0,
      invalidRecordsSkipped := 0, error := some e }

/-- Warehouse size state: the small resting size and the scaled-up
size. -/
inductive WSize where
  | xsmall
  | xlarge
deriving DecidableEq

/-- The four `session.sql(...).collect()` calls of
`create_analytics_tables` in
`scripts/co2_analytical_sp/co2_analytical_sp/function.py`, in program
order: scale-up, daily CTAS, weekly CTAS, scale-down. -/
structure ASession where
  alterUpQ : Except String Unit
  dailySqlQ : Except String Unit
  weeklySqlQ : Except String Unit
  alterDownQ : Except String Unit

/-- `create_analytics_tables` (scripts variant): runs the four
statements in order with no `try`/`finally`; an exception propagates
immediately. Returns the warehouse size at exit together with the
outcome. -/
def create_analytics_tables (s : ASession) : WSize × Except String String :=
  match s.alterUpQ with
  | .error e => (WSize.xsmall, .error e)
  | .ok _ =>
    match s.dailySqlQ with
    | .error e => (WSize.xlarge, .error e)
    | .ok _ =>
      match s.weeklySqlQ with
      | .error e => (WSize.xlarge, .error e)
      | .ok _ =>
        match s.alterDownQ with
        | .error e => (WSize.xlarge, .error e)
        | .ok _ =>
          (WSize.xsmall,
            .ok "Analytics tables (DAILY_ANALYTICS and WEEKLY_ANALYTICS) created successfully.")

/-- The session operations of the udfs_and_spoc variant of
`merge_raw_into_harmonized`
(`udfs_and_spoc/co2_harmonized_sp/co2_harmonized_sp/function.py`):
the current-warehouse lookup, the environment fallback name, the
scale-up, the merge work inside the `try`, and the scale-down of the
`finally`. -/
structure USession where
  currentWarehouse : Option String
  envName : String
  alterUpQ : Except String Unit
  mergeWorkQ : Except String Bool
  alterDownQ : Except String Unit

/-- udfs_and_spoc `merge_raw_into_harmonized`: resolve a warehouse name
(session current, else `co2_wh_{env}`, else raise, which the `except`
turns into `False` with no warehouse to scale down); scale up; run the
merge work, any exception giving `False`; then the `finally` scales
back down, its own failure being swallowed. Returns the final
warehouse size and the returned boolean. -/
def merge_raw_into_harmonized_udfs (s : USession) : WSize × Bool :=
  let cw : Option String :=
    match s.currentWarehouse with
    | some w => some w
    | Option.none =>
      if s.envName = "" then Option.none else some ("co2_wh_" ++ s.envName)
  match cw with
  | Option.none => (WSize.xsmall, false)
  | some _ =>
    let tryOut : WSize × Bool :=
      match s.alterUpQ with
      | .error _ => (WSize.xsmall, false)
      | .ok _ =>
        match s.mergeWorkQ with
        | .error _ => (WSize.xlarge, false)
        | .ok b => (WSize.xlarge, b)
    match s.alterDownQ with
    | .ok _ => (WSize.xsmall, tryOut.2)
    | .error _ => tryOut

/-- One harmonized row as read by the analytics SQL: the date (a day
count; day 0 lies on a week boundary) and the concentration. -/
structure DRow where
  date : ℤ
  ppm : ℚ
deriving DecidableEq

/-- `DATE_TRUNC(WEEK, d)`: the first day of the fixed 7-day window
containing `d`. -/
def weekStart (d : ℤ) : ℤ := d - d % 7

/-- The rows of one week bucket, in input order. -/
def weekRows (rows : List DRow) (w : ℤ) : List DRow :=
  rows.filter (fun r => decide (weekStart r.date = w))

/-- The distinct week buckets (`GROUP BY WEEK_START`). -/
def weekStarts (rows : List DRow) : List ℤ :=
  (rows.map (fun r => weekStart r.date)).dedup

/-- The `weekly_base` CTE of the weekly analytics SQL: each row paired
with `CALCULATE_CO2_VOLATILITY(CO2_PPM, LAG(CO2_PPM) OVER (PARTITION BY
week ORDER BY DATE))`. The accumulator holds the rows already passed,
so for date-sorted input the lag of a row is the last earlier row of
the same week. -/
def weeklyBaseAux : List DRow → List DRow → List (ℤ × ℚ × Option ℚ)
  | _, [] => []
  | seen, r :: rest =>
    (weekStart r.date, r.ppm,
      calculate_co2_volatility (some r.ppm)
        (((seen.filter
            (fun p => decide (weekStart p.date = weekStart r.date))).getLast?).map DRow.ppm))
      :: weeklyBaseAux (seen ++ [r]) rest

def weeklyBase (rows : List DRow) : List (ℤ × ℚ × Option ℚ) :=
  weeklyBaseAux [] rows

/-- `MAX(CASE WHEN rn = 1 THEN CO2_PPM END)` where `rn = ROW_NUMBER()
OVER (PARTITION BY WEEK_START ORDER BY DATE DESC)`: the concentration
of a week row that no same-week row postdates. -/
def lastCo2Sql (rows : List DRow) (w : ℤ) : Option ℚ :=
  (((weekRows rows w).filter
      (fun r =>
        decide ((weekRows rows w).countP (fun r2 => decide (r.date < r2.date)) = 0))).map
    DRow.ppm).max?

/-- `AVG(DAILY_VOLATILITY)` over one week bucket: SQL `AVG` ignores
NULL values and is NULL on an all-NULL group. -/
def weeklyVolSql (rows : List DRow) (w : ℤ) : Option ℚ :=
  let vols := (weeklyBase rows).filterMap (fun e => if e.1 = w then e.2.2 else Option.none)
  if vols.isEmpty then Option.none else some (vols.sum / (vols.length : ℚ))

/-- One output row of `ANALYTICS_CO2.WEEKLY_ANALYTICS`. -/
structure WeeklyRow where
  weekStart : ℤ
  weeklyCo2 : Option ℚ
  weeklyVolatility : Option ℚ
  weeklyPercentChange : ℚ
deriving DecidableEq

/-- The final select of the weekly analytics SQL: one row per week;
`WEEKLY_CO2` is the rounded `LAST_CO2`; `WEEKLY_VOLATILITY` is the
rounded in-week average of daily volatilities;
`WEEKLY_PERCENTAGE_CHANGE` calls the weekly percent-change UDF with
`(LAST_CO2, LAG(LAST_CO2) OVER (ORDER BY WEEK_START))`, the lag being
modelled by zipping the representative list with its shift. -/
def weeklyAnalytics (rows : List DRow) : List WeeklyRow :=
  let ws := weekStarts rows
  let reps := ws.map (fun w => lastCo2Sql rows w)
  (ws.zip (reps.zip (Option.none :: reps))).map
    (fun e =>
      { weekStart := e.1,
        weeklyCo2 := e.2.1.map sqlRound3,
        weeklyVolatility := (weeklyVolSql rows e.1).map sqlRound3,
        weeklyPercentChange := sqlRound3 (co2_weekly_percent_change e.2.1 e.2.2) })


/-- Concrete processing date used in the concrete validation runs. -/
def today0 : Today := ⟨2024, 6, 15⟩

/-- A stream record for 2024-01-01 with an in-range concentration. -/
def recDupA : StreamRec := ⟨2024, 1, 1, 2024, some 400, .insert, false, "rowA"⟩

/-- A stream record for the same date with an out-of-range
concentration. -/
def recDupB : StreamRec := ⟨2024, 1, 1, 2024, some 600, .insert, false, "rowB"⟩

/-- A stream record dated in the future (year 2030) with an
out-of-range concentration. -/
def recFuture : StreamRec := ⟨2030, 1, 1, 2030, some 600, .insert, false, "rowF"⟩

/-- A harmonizer session whose stream read raises. -/
def failingSession : HSession :=
  { today := today0,
    streamRows := Except.error "stream unavailable",
    tableExistsQ := Except.ok true,
    createTableQ := Except.ok (),
    mergeExec := fun _ => Except.ok [],
    streamHasDataQ := Except.ok true }

/-- An analytics session whose daily CTAS statement raises. -/
def failingDailySession : ASession :=
  { alterUpQ := Except.ok (),
    dailySqlQ := Except.error "daily CTAS failed",
    weeklySqlQ := Except.ok (),
    alterDownQ := Except.ok () }

/-- A udfs_and_spoc merge session whose merge work raises. -/
def failingMergeSession : USession :=
  { currentWarehouse := some "CO2_WH",
    envName := "dev",
    alterUpQ := Except.ok (),
    mergeWorkQ := Except.error "merge failed",
    alterDownQ := Except.ok () }

/-- Three harmonized rows spanning two week buckets: day 0 alone, then
days 7 and 8 in the next bucket. -/
def sampleRows : List DRow := [⟨0, 400⟩, ⟨7, 390⟩, ⟨8, 500⟩]


theorem calculate_co2_volatility_410_400 :
    calculate_co2_volatility (some 410) (some 400) = some (24691/10000) := by
  simp only [calculate_co2_volatility]
  rw [if_neg (by norm_num), if_neg (by norm_num)]
  have harg : |(410 : ℚ) - 400| / (((410 : ℚ) + 400) / 2) * 100 = 200/81 := by
    norm_num
  rw [harg, pyRound4_eq_of_floor (200/81) 24691 (by norm_num) (by norm_num)]
  norm_num

/-- C1: for non-null numeric inputs with `prev ≠ 0` the daily
percent-change function returns `((curr - prev) / prev) * 100`, and it
returns exactly `0.0` whenever `prev` is `None`, `curr` is `None`,
`prev` equals 0, or either input fails numeric coercion. -/
theorem co2_percent_change_correct :
    (∀ prev curr : ℚ, prev ≠ 0 →
      co2_percent_change (.num prev) (.num curr) = ((curr - prev) / prev) * 100)
    ∧ (∀ c, co2_percent_change .none c = 0)
    ∧ (∀ p, co2_percent_change p .none = 0)
    ∧ (∀ c, co2_percent_change (.num 0) c = 0)
    ∧ (∀ c, co2_percent_change .nonnum c = 0)
    ∧ (∀ p, co2_percent_change p .nonnum = 0) := by
  refine ⟨fun prev curr h => ?_, fun c => ?_, fun p => ?_, fun c => ?_, fun c => ?_, fun p => ?_⟩
  · simp only [co2_percent_change]
    rw [if_neg h]
  · cases c <;> rfl
  · cases p <;> rfl
  · cases c <;> simp [co2_percent_change]
  · cases c <;> rfl
  · cases p <;> rfl

/-- C1 witness: the theorem applied at `prev = 2`, `curr = 3` and at a
`None` input. -/
theorem co2_percent_change_correct_witness :
    co2_percent_change (.num 2) (.num 3) = ((3 - 2) / 2) * 100 ∧
    co2_percent_change .none (.num 5) = 0 :=
  ⟨co2_percent_change_correct.1 2 3 (by norm_num),
   co2_percent_change_correct.2.1 (.num 5)⟩

/-- C5 counterexample: with a null previous value the dedicated
volatility function returns `None`, not `0.0` as the claim states. -/
theorem calculate_co2_volatility_null_counterexample :
    calculate_co2_volatility (some 400) Option.none = Option.none ∧
    Option.none ≠ some (0 : ℚ) :=
  ⟨rfl, by simp⟩

/-- C5 amended: the volatility function returns `None` (never an
exception) whenever its previous-value input is null or zero, in
agreement with its docstring and its unit tests. -/
theorem calculate_co2_volatility_null_or_zero_prev :
    ∀ c : Option ℚ, calculate_co2_volatility c Option.none = Option.none ∧
      calculate_co2_volatility c (some 0) = Option.none := by
  intro c
  constructor
  · cases c <;> rfl
  · cases c with
    | none => rfl
    | some x =>
      simp only [calculate_co2_volatility]
      rw [if_pos (Or.inr le_rfl)]

/-- C8 counterexample: swapping the arguments of the percent-change
function does not negate the result: at `(1, 2)` the function returns
100 one way and -50 the other. -/
theorem co2_percent_change_swap_counterexample :
    co2_percent_change (.num 1) (.num 2) = 100 ∧
    co2_percent_change (.num 2) (.num 1) = -50 ∧
    (100 : ℚ) ≠ -(-50 : ℚ) := by
  refine ⟨?_, ?_, by norm_num⟩ <;> norm_num [co2_percent_change]

/-- C8 amended: for positive inputs, swapping the arguments flips the
sign of the result (positive becomes negative, zero stays zero), but
the magnitude is in general different. -/
theorem co2_percent_change_swap_sign :
    ∀ prev curr : ℚ, 0 < prev → 0 < curr →
      ((0 < co2_percent_change (.num prev) (.num curr) ↔
        co2_percent_change (.num curr) (.num prev) < 0) ∧
       (co2_percent_change (.num prev) (.num curr) = 0 ↔
        co2_percent_change (.num curr) (.num prev) = 0)) := by
  intro prev curr hp hc
  simp only [co2_percent_change]
  rw [if_neg hp.ne', if_neg hc.ne']
  constructor
  · have h1 : 0 < ((curr - prev) / prev) * 100 ↔ prev < curr := by
      rw [div_mul_eq_mul_div, lt_div_iff₀ hp, zero_mul]
      constructor <;> intro h <;> nlinarith
    have h2 : ((prev - curr) / curr) * 100 < 0 ↔ prev < curr := by
      rw [div_mul_eq_mul_div, div_lt_iff₀ hc, zero_mul]
      constructor <;> intro h <;> nlinarith
    exact h1.trans h2.symm
  · have h1 : ((curr - prev) / prev) * 100 = 0 ↔ curr = prev := by
      rw [div_mul_eq_mul_div, div_eq_zero_iff]
      simp [hp.ne', sub_eq_zero]
    have h2 : ((prev - curr) / curr) * 100 = 0 ↔ prev = curr := by
      rw [div_mul_eq_mul_div, div_eq_zero_iff]
      simp [hc.ne', sub_eq_zero]
    rw [h1, h2, eq_comm]

/-- C8 witness: the amended theorem applied at `prev = 2`, `curr = 3`. -/
theorem co2_percent_change_swap_sign_witness :
    (0 < co2_percent_change (.num 2) (.num 3) ↔
      co2_percent_change (.num 3) (.num 2) < 0) ∧
    (co2_percent_change (.num 2) (.num 3) = 0 ↔
      co2_percent_change (.num 3) (.num 2) = 0) :=
  co2_percent_change_swap_sign 2 3 (by norm_num) (by norm_num)

/-- C9: `volatility(410.0, 400.0)` is within 0.002 of 2.4691, and
`volatility(x, x) = 0.0` for every positive `x`. -/
theorem calculate_co2_volatility_values :
    (∃ v : ℚ, calculate_co2_volatility (some 410) (some 400) = some v ∧
      |v - 24691/10000| ≤ 2/1000)
    ∧ (∀ x : ℚ, 0 < x → calculate_co2_volatility (some x) (some x) = some 0) := by
  constructor
  · exact ⟨24691/10000, calculate_co2_volatility_410_400, by norm_num⟩
  · intro x hx
    simp only [calculate_co2_volatility]
    rw [if_neg (by simp [hx.not_le]),
      if_neg (by rw [show (x + x) / 2 = x by ring]; exact hx.ne')]
    rw [show |x - x| / ((x + x) / 2) * 100 = 0 by
      rw [sub_self, abs_zero, zero_div, zero_mul]]
    rw [pyRound4_zero]

/-- C9 witness: the positive-input branch of the theorem applied at
`x = 350`. -/
theorem calculate_co2_volatility_values_witness :
    calculate_co2_volatility (some 350) (some 350) = some 0 :=
  calculate_co2_volatility_values.2 350 (by norm_num)

/-- C10: the volatility function is symmetric in its two arguments,
including all null and non-positive inputs. -/
theorem calculate_co2_volatility_symm :
    ∀ a b : Option ℚ, calculate_co2_volatility a b = calculate_co2_volatility b a := by
  intro a b
  cases a with
  | none => cases b <;> rfl
  | some x =>
    cases b with
    | none => rfl
    | some y =>
      simp only [calculate_co2_volatility]
      by_cases h : x ≤ 0 ∨ y ≤ 0
      · rw [if_pos h, if_pos h.symm]
      · rw [if_neg h, if_neg (show ¬(y ≤ 0 ∨ x ≤ 0) from fun hc => h hc.symm)]
        rw [add_comm y x, abs_sub_comm y x]


theorem countP_filter_of_imp {α : Type} {p q : α → Bool} (l : List α)
    (h : ∀ a, q a = true → p a = true) :
    (l.filter p).countP q = l.countP q := by
  induction l with
  | nil => rfl
  | cons a tl ih =>
    by_cases hp : p a = true
    · rw [List.filter_cons_of_pos hp, List.countP_cons, List.countP_cons, ih]
    · have hq : q a = false := by
        cases hqa : q a
        · rfl
        · exact absurd (h a hqa) hp
      rw [List.filter_cons_of_neg (by simp [hp]), List.countP_cons, hq, ih]
      simp

theorem sameDateB_fields {a b : StreamRec} (h : sameDateB a b = true) :
    a.year = b.year ∧ a.month = b.month ∧ a.day = b.day := by
  unfold sameDateB at h
  exact of_decide_eq_true h

theorem mem_validate_timestamps {t : Today} {src : List StreamRec} {u : VRec}
    (hu : u ∈ validate_timestamps t src) :
    u.row ∈ src ∧ notFutureB t u.row = true ∧ decide (1950 ≤ u.row.year) = true := by
  unfold validate_timestamps at hu
  obtain ⟨s, hs, rfl⟩ := List.mem_map.1 hu
  rw [List.mem_filter] at hs
  obtain ⟨hs1, hs2⟩ := hs
  rw [List.mem_filter] at hs1
  exact ⟨hs1.1, hs1.2, hs2⟩

theorem mem_validate_data_consistency {l : List VRec} {v : VRec}
    (hv : v ∈ validate_data_consistency l) : ∃ u ∈ l, v.row = u.row := by
  unfold validate_data_consistency at hv
  obtain ⟨u, hu, rfl⟩ := List.mem_map.1 hv
  exact ⟨u, hu, rfl⟩

theorem mem_check_duplicates_row {l : List VRec} {v : VRec}
    (hv : v ∈ check_duplicates l) : ∃ u ∈ l, v.row = u.row := by
  unfold check_duplicates at hv
  obtain ⟨u, hu, hv'⟩ := List.mem_map.1 hv
  subst hv'
  by_cases hc : 1 < dateCount l u.row ∧ u.status = VStatus.valid
  · rw [if_pos hc]
    exact ⟨u, hu, rfl⟩
  · rw [if_neg hc]
    exact ⟨u, hu, rfl⟩

theorem mem_check_duplicates_valid {l : List VRec} {v : VRec}
    (hv : v ∈ check_duplicates l) (hs : v.status = VStatus.valid) :
    v ∈ l ∧ dateCount l v.row ≤ 1 := by
  unfold check_duplicates at hv
  obtain ⟨u, hu, hv'⟩ := List.mem_map.1 hv
  by_cases hc : 1 < dateCount l u.row ∧ u.status = VStatus.valid
  · rw [if_pos hc] at hv'
    rw [← hv'] at hs
    cases hs
  · rw [if_neg hc] at hv'
    subst hv'
    refine ⟨hu, ?_⟩
    by_contra hgt
    exact hc ⟨Nat.not_le.1 hgt, hs⟩

theorem mem_check_duplicates_of_nonvalid {l : List VRec} {v : VRec}
    (hv : v ∈ l) (hs : v.status ≠ VStatus.valid) : v ∈ check_duplicates l := by
  unfold check_duplicates
  refine List.mem_map.2 ⟨v, hv, ?_⟩
  rw [if_neg (fun hc => hs hc.2)]

theorem mem_check_duplicates_mark {l : List VRec} {v : VRec}
    (hv : v ∈ l) (hs : v.status = VStatus.valid) (hc : 1 < dateCount l v.row) :
    ({ row := v.row, status := VStatus.duplicateDate } : VRec) ∈ check_duplicates l := by
  unfold check_duplicates
  exact List.mem_map.2 ⟨v, hv, by rw [if_pos ⟨hc, hs⟩]⟩

theorem mem_validate_data_consistency_invalidDate {l : List VRec} {v : VRec}
    (hv : v ∈ l) (hs : v.status = VStatus.invalidDate) :
    ({ row := v.row, status := VStatus.invalidDate } : VRec) ∈ validate_data_consistency l := by
  unfold validate_data_consistency
  refine List.mem_map.2 ⟨v, hv, ?_⟩
  rw [if_neg (by simp [hs]), if_pos hs]

theorem dateCount_validate_data_consistency (l : List VRec) (r : StreamRec) :
    dateCount (validate_data_consistency l) r = dateCount l r := by
  unfold dateCount validate_data_consistency
  rw [List.countP_map]
  rfl

theorem dateCount_validate_timestamps {t : Today} {src : List StreamRec} {r : StreamRec}
    (h1 : notFutureB t r = true) (h2 : decide (1950 ≤ r.year) = true) :
    dateCount (validate_timestamps t src) r = src.countP (fun s => sameDateB s r) := by
  unfold dateCount validate_timestamps
  rw [List.countP_map]
  show ((src.filter _).filter _).countP (fun s => sameDateB s r) = _
  rw [countP_filter_of_imp _ (fun a ha => ?_), countP_filter_of_imp _ (fun a ha => ?_)]
  · obtain ⟨e1, e2, e3⟩ := sameDateB_fields ha
    unfold notFutureB at h1 ⊢
    rw [e1, e2, e3]
    exact h1
  · obtain ⟨e1, _, _⟩ := sameDateB_fields ha
    rw [decide_eq_true_eq] at h2 ⊢
    rw [e1]
    exact h2

theorem run_validations_keeps {t : Today} {src : List StreamRec} {v : VRec}
    (hv : v ∈ run_validations t src) :
    v.row ∈ src ∧ notFutureB t v.row = true ∧ decide (1950 ≤ v.row.year) = true := by
  unfold run_validations at hv
  obtain ⟨u, hu, hru⟩ := mem_check_duplicates_row hv
  obtain ⟨w, hw, hrw⟩ := mem_validate_data_consistency hu
  have h3 := mem_validate_timestamps hw
  rw [hru, hrw]
  exact h3

/-- C2 counterexample: two stream records share (2024, 1, 1) but one
has an out-of-range concentration; after the validation passes only
the still-VALID member is marked DUPLICATE_DATE while the other keeps
INVALID_CO2_VALUE, so not every member of the group is marked
DUPLICATE_DATE. -/
theorem check_duplicates_counterexample :
    (run_validations today0 [recDupA, recDupB]).map VRec.status =
      [VStatus.duplicateDate, VStatus.invalidCo2Value] ∧
    VStatus.invalidCo2Value ≠ VStatus.duplicateDate := by
  constructor
  · decide
  · decide

/-- C2 amended: in the duplicate pass every group member whose status
is still VALID is marked DUPLICATE_DATE, members already carrying an
invalid status keep it unchanged, and consequently no record whose
(year, month, day) occurs more than once in the batch ever reaches the
merge: any record passing the VALID merge filter has a unique date in
the stream batch. -/
theorem duplicate_groups_never_merge :
    (∀ (t : Today) (source : List StreamRec) (v : VRec),
        v ∈ valid_records t source →
        source.countP (fun s => sameDateB s v.row) ≤ 1)
    ∧ (∀ (l : List VRec) (v : VRec), v ∈ l → v.status = VStatus.valid →
        1 < dateCount l v.row →
        ({ row := v.row, status := VStatus.duplicateDate } : VRec) ∈ check_duplicates l)
    ∧ (∀ (l : List VRec) (v : VRec), v ∈ l → v.status ≠ VStatus.valid →
        v ∈ check_duplicates l) := by
  refine ⟨?_, fun l v hv hs hc => mem_check_duplicates_mark hv hs hc,
    fun l v hv hs => mem_check_duplicates_of_nonvalid hv hs⟩
  intro t source v hv
  unfold valid_records at hv
  rw [List.mem_filter] at hv
  obtain ⟨hmem, hvb⟩ := hv
  have hvalid : v.status = VStatus.valid := of_decide_eq_true hvb
  have hkeep := run_validations_keeps hmem
  have hcd : v ∈ check_duplicates (validate_data_consistency (validate_timestamps t source)) :=
    hmem
  obtain ⟨_, hcount⟩ := mem_check_duplicates_valid hcd hvalid
  rw [dateCount_validate_data_consistency,
    dateCount_validate_timestamps hkeep.2.1 hkeep.2.2] at hcount
  exact hcount

/-- C2 witness: the amended theorem applied to a singleton batch (its
record merges, so its date is unique) and to a two-element duplicate
group whose VALID member gets marked. -/
theorem duplicate_groups_never_merge_witness :
    ([recDupA].countP (fun s => sameDateB s recDupA) ≤ 1) ∧
    ({ row := recDupA, status := VStatus.duplicateDate } : VRec) ∈
      check_duplicates [⟨recDupA, VStatus.valid⟩, ⟨recDupB, VStatus.valid⟩] :=
  ⟨duplicate_groups_never_merge.1 today0 [recDupA] ⟨recDupA, VStatus.valid⟩ (by decide),
   duplicate_groups_never_merge.2.1 [⟨recDupA, VStatus.valid⟩, ⟨recDupB, VStatus.valid⟩]
     ⟨recDupA, VStatus.valid⟩ (by decide) rfl (by decide)⟩

/-- C3 counterexample: a record dated in the future with an
out-of-range concentration is filtered out by the timestamp pass, so
the validated output is empty and the record is never assigned
INVALID_DATE (or any status at all). -/
theorem future_record_dropped_counterexample :
    run_validations today0 [recFuture] = [] ∧
    (run_validations today0 [recFuture]).map VRec.status ≠ [VStatus.invalidDate] := by
  constructor
  · decide
  · decide

/-- C3 amended: future-dated (and pre-1950) records are removed from
the batch by the timestamp pass rather than tagged INVALID_DATE; for
the records that survive, a status of INVALID_DATE is preserved by the
consistency pass and any invalid status is left unchanged by the
duplicate pass, so once a record is flagged invalid no later pass
changes its status. -/
theorem validation_status_monotone :
    (∀ (t : Today) (source : List StreamRec) (v : VRec),
        v ∈ run_validations t source →
        notFutureB t v.row = true ∧ 1950 ≤ v.row.year)
    ∧ (∀ (l : List VRec) (v : VRec), v ∈ l → v.status = VStatus.invalidDate →
        ({ row := v.row, status := VStatus.invalidDate } : VRec) ∈ validate_data_consistency l)
    ∧ (∀ (l : List VRec) (v : VRec), v ∈ l → v.status ≠ VStatus.valid →
        v ∈ check_duplicates l) := by
  refine ⟨fun t source v hv => ?_,
    fun l v hv hs => mem_validate_data_consistency_invalidDate hv hs,
    fun l v hv hs => mem_check_duplicates_of_nonvalid hv hs⟩
  have h := run_validations_keeps hv
  exact ⟨h.2.1, of_decide_eq_true h.2.2⟩

/-- C3 witness: the amended theorem applied to a surviving record and
to a singleton list carrying INVALID_DATE. -/
theorem validation_status_monotone_witness :
    (notFutureB today0 recDupA = true ∧ 1950 ≤ recDupA.year) ∧
    ({ row := recDupB, status := VStatus.invalidDate } : VRec) ∈
      validate_data_consistency [⟨recDupB, VStatus.invalidDate⟩] :=
  ⟨validation_status_monotone.1 today0 [recDupA] ⟨recDupA, VStatus.valid⟩ (by decide),
   validation_status_monotone.2.1 [⟨recDupB, VStatus.invalidDate⟩]
     ⟨recDupB, VStatus.invalidDate⟩ (by decide) rfl⟩

/-- C4: whenever any step inside the harmonizer merge raises, the
returned result reports that error and carries zero counts for
valid-processed, inserted, updated and skipped records. -/
theorem merge_error_zero_counts :
    ∀ (s : HSession) (e : String), merge_body s = Except.error e →
      merge_raw_into_harmonized s =
        { validRecordsProcessed := 0, rowsInserted := 0, rowsUpdated := 0,
          invalidRecordsSkipped := 0, error := some e } := by
  intro s e h
  unfold merge_raw_into_harmonized
  rw [h]

/-- C4 witness: the theorem applied to a session whose stream read
raises. -/
theorem merge_error_zero_counts_witness :
    merge_raw_into_harmonized failingSession =
      { validRecordsProcessed := 0, rowsInserted := 0, rowsUpdated := 0,
        invalidRecordsSkipped := 0, error := some "stream unavailable" } :=
  merge_error_zero_counts failingSession "stream unavailable" rfl

/-- C7 counterexample: in the scripts analytics procedure the scale-up
is not enclosed in a finally-equivalent scope: when the daily CTAS
raises after a successful scale-up, the function exits with the
warehouse still at XLARGE. -/
theorem analytics_scale_down_counterexample :
    create_analytics_tables failingDailySession =
      (WSize.xlarge, Except.error "daily CTAS failed") ∧
    WSize.xlarge ≠ WSize.xsmall :=
  ⟨rfl, by decide⟩

/-- C7 amended: the udfs_and_spoc merge procedure does wrap its
scale-up in try/finally, so whenever the scale-down statement itself
succeeds the warehouse ends at XSMALL on every path, including
scale-up failure and merge failure; the scripts analytics procedure,
however, scales down only on its success path — with a successful
scale-up and a failing daily statement the warehouse is left at
XLARGE. -/
theorem warehouse_scale_down_paths :
    (∀ s : USession, s.alterDownQ = Except.ok () →
      (merge_raw_into_harmonized_udfs s).1 = WSize.xsmall)
    ∧ (∀ s : ASession, s.alterUpQ = Except.ok () →
        (∃ e, s.dailySqlQ = Except.error e) →
        (create_analytics_tables s).1 = WSize.xlarge) := by
  constructor
  · rintro ⟨cw, env, up, work, down⟩ hdown
    obtain rfl : down = Except.ok () := hdown
    cases cw with
    | some w => rfl
    | none =>
      by_cases henv : env = ""
      · simp [merge_raw_into_harmonized_udfs, henv]
      · simp [merge_raw_into_harmonized_udfs, henv]
  · intro s hup hdaily
    obtain ⟨e, he⟩ := hdaily
    unfold create_analytics_tables
    rw [hup, he]

/-- C7 witness: the amended theorem applied to a merge session whose
merge work raises (still ending XSMALL) and to the analytics session
whose daily statement raises (ending XLARGE). -/
theorem warehouse_scale_down_paths_witness :
    (merge_raw_into_harmonized_udfs failingMergeSession).1 = WSize.xsmall ∧
    (create_analytics_tables failingDailySession).1 = WSize.xlarge :=
  ⟨warehouse_scale_down_paths.1 failingMergeSession rfl,
   warehouse_scale_down_paths.2 failingDailySession rfl ⟨"daily CTAS failed", rfl⟩⟩

theorem sqlLast (l : List DRow) (h : List.Pairwise (fun a b => a.date < b.date) l) :
    ((l.filter (fun r => decide (l.countP (fun r2 => decide (r.date < r2.date)) = 0))).map
      DRow.ppm).max? = l.getLast?.map DRow.ppm := by
  induction l with
  | nil => rfl
  | cons a rest ih =>
    rw [List.pairwise_cons] at h
    obtain ⟨ha, hrest⟩ := h
    cases rest with
    | nil =>
      simp [List.countP_cons, lt_irrefl]
    | cons b tl =>
      have hab : a.date < b.date := ha b (by simp)
      have hcount_a :
          (a :: b :: tl).countP (fun r2 => decide (a.date < r2.date)) ≠ 0 := by
        intro h0
        exact absurd (decide_eq_true hab)
          (by simpa using (List.countP_eq_zero.1 h0) b (by simp))
      have hfa :
          (fun r => decide ((a :: b :: tl).countP
            (fun r2 => decide (r.date < r2.date)) = 0)) a = false := by
        simpa using hcount_a
      have hcongr : ∀ r ∈ b :: tl,
          (decide ((a :: b :: tl).countP (fun r2 => decide (r.date < r2.date)) = 0)) =
          (decide ((b :: tl).countP (fun r2 => decide (r.date < r2.date)) = 0)) := by
        intro r hr
        have hra : a.date < r.date := ha r hr
        have hfalse : decide (r.date < a.date) = false :=
          decide_eq_false (lt_asymm hra)
        rw [List.countP_cons, hfalse]
        simp
      rw [List.filter_cons_of_neg (by simpa using hfa), List.filter_congr hcongr,
        ih hrest, List.getLast?_cons_cons]

theorem lastCo2Sql_eq_getLast {rows : List DRow}
    (h : List.Pairwise (fun a b => a.date < b.date) rows) (w : ℤ) :
    lastCo2Sql rows w = ((weekRows rows w).getLast?).map DRow.ppm := by
  unfold lastCo2Sql
  exact sqlLast _ (List.Pairwise.filter _ h)

theorem weeklyAnalytics_length (rows : List DRow) :
    (weeklyAnalytics rows).length = (weekStarts rows).length := by
  unfold weeklyAnalytics
  simp [List.length_zip]

theorem weeklyAnalytics_pc (rows : List DRow)
    (h : List.Pairwise (fun a b => a.date < b.date) rows)
    (j : ℕ) (hj : j + 1 < (weeklyAnalytics rows).length) :
    ((weeklyAnalytics rows).get ⟨j + 1, hj⟩).weeklyPercentChange =
      sqlRound3 (co2_weekly_percent_change
        (((weekRows rows ((weekStarts rows).get ⟨j + 1, by
            rwa [weeklyAnalytics_length] at hj⟩)).getLast?).map DRow.ppm)
        (((weekRows rows ((weekStarts rows).get ⟨j, by
            rw [weeklyAnalytics_length] at hj; omega⟩)).getLast?).map DRow.ppm)) := by
  rw [← lastCo2Sql_eq_getLast h, ← lastCo2Sql_eq_getLast h]
  simp only [weeklyAnalytics, List.get_eq_getElem, List.getElem_map, List.getElem_zip,
    List.getElem_cons_succ]

theorem weekStart_window (d : ℤ) : weekStart d ≤ d ∧ d < weekStart d + 7 := by
  unfold weekStart
  have h1 : 0 ≤ d % 7 := Int.emod_nonneg d (by norm_num)
  have h2 : d % 7 < 7 := Int.emod_lt_of_pos d (by norm_num)
  omega

theorem calc_vol_500_390 :
    calculate_co2_volatility (some 500) (some 390) = some (247191/10000) := by
  simp only [calculate_co2_volatility]
  rw [if_neg (by norm_num), if_neg (by norm_num)]
  have harg : |(500 : ℚ) - 390| / (((500 : ℚ) + 390) / 2) * 100 = 22000000/89/10000 := by
    norm_num
  rw [harg, pyRound4_eq_of_floor _ 247191 (by norm_num) (by norm_num)]
  norm_num

theorem calc_vol_500_400 :
    calculate_co2_volatility (some 500) (some 400) = some (222222/10000) := by
  simp only [calculate_co2_volatility]
  rw [if_neg (by norm_num), if_neg (by norm_num)]
  have harg : |(500 : ℚ) - 400| / (((500 : ℚ) + 400) / 2) * 100 = 2000000/9/10000 := by
    norm_num
  rw [harg, pyRound4_eq_of_floor _ 222222 (by norm_num) (by norm_num)]
  norm_num

theorem calc_vol_prev_none (c : Option ℚ) :
    calculate_co2_volatility c Option.none = Option.none := by
  cases c <;> rfl

theorem weeklyVolSql_sample_7 :
    weeklyVolSql sampleRows 7 = some (247191/10000) := by
  simp [sampleRows, weeklyVolSql, weeklyBase, weeklyBaseAux, weekStart, calc_vol_500_390,
    calc_vol_prev_none]

theorem weeklyVolSql_sample_0 :
    weeklyVolSql sampleRows 0 = Option.none := by
  simp [sampleRows, weeklyVolSql, weeklyBase, weeklyBaseAux, weekStart, calc_vol_500_390,
    calc_vol_prev_none]

theorem sqlRound3_247191 : sqlRound3 ((247191 : ℚ)/10000) = 24719/1000 := by
  rw [sqlRound3_eq_of_floor _ 24719 (by norm_num) (by norm_num)]
  norm_num

/-- C6 counterexample: on three rows spanning two week buckets (day 0
with value 400; days 7 and 8 with values 390 and 500) the code's
weekly volatility for the second bucket is 24.719 — the average of the
in-week daily volatilities — whereas applying the volatility formula
across the two buckets' representative values (400 and 500) gives
22.222. -/
theorem weekly_volatility_counterexample :
    (weeklyAnalytics sampleRows).map WeeklyRow.weeklyVolatility =
      [Option.none, some (24719/1000)] ∧
    (calculate_co2_volatility (some 500) (some 400)).map sqlRound3 = some (22222/1000) ∧
    ((24719 : ℚ)/1000 ≠ 22222/1000) := by
  refine ⟨?_, ?_, by norm_num⟩
  · norm_num [sampleRows, weeklyAnalytics, weekStarts, weekStart, List.dedup_cons_of_mem,
      List.dedup_cons_of_not_mem]
    exact ⟨weeklyVolSql_sample_0, 247191/10000, weeklyVolSql_sample_7, sqlRound3_247191⟩
  · rw [calc_vol_500_400,
      show (some ((222222 : ℚ)/10000)).map sqlRound3 = some (sqlRound3 ((222222 : ℚ)/10000))
        from rfl,
      sqlRound3_eq_of_floor _ 22222 (by norm_num) (by norm_num)]
    norm_num

/-- C6 amended: the weekly aggregation buckets dates into fixed 7-day
windows and per window the SQL rn = 1 selection picks the last value in
chronological order as the representative, to which the percent-change
UDF is applied across consecutive windows (the current window's value
being passed as the UDF's previous-value parameter); the weekly
volatility column, however, is the rounded average of the within-week
daily volatilities, not the volatility formula across windows. -/
theorem weekly_aggregation_windows :
    (∀ d : ℤ, weekStart d ≤ d ∧ d < weekStart d + 7)
    ∧ (∀ rows : List DRow, List.Pairwise (fun a b => a.date < b.date) rows →
        ∀ w : ℤ, lastCo2Sql rows w = ((weekRows rows w).getLast?).map DRow.ppm)
    ∧ (∀ rows : List DRow, List.Pairwise (fun a b => a.date < b.date) rows →
        ∀ (j : ℕ) (hj : j + 1 < (weeklyAnalytics rows).length),
        ((weeklyAnalytics rows).get ⟨j + 1, hj⟩).weeklyPercentChange =
          sqlRound3 (co2_weekly_percent_change
            (((weekRows rows ((weekStarts rows).get ⟨j + 1, by
                rwa [weeklyAnalytics_length] at hj⟩)).getLast?).map DRow.ppm)
            (((weekRows rows ((weekStarts rows).get ⟨j, by
                rw [weeklyAnalytics_length] at hj; omega⟩)).getLast?).map DRow.ppm))) :=
  ⟨weekStart_window,
   fun _ h w => lastCo2Sql_eq_getLast h w,
   fun rows h j hj => weeklyAnalytics_pc rows h j hj⟩

/-- C6 witness: the amended theorem applied to the three sample rows
at day 10 and week index 0. -/
theorem weekly_aggregation_windows_witness :
    (weekStart 10 ≤ 10 ∧ (10 : ℤ) < weekStart 10 + 7) ∧
    lastCo2Sql sampleRows 7 = ((weekRows sampleRows 7).getLast?).map DRow.ppm ∧
    ((weeklyAnalytics sampleRows).get ⟨1, by decide⟩).weeklyPercentChange =
      sqlRound3 (co2_weekly_percent_change
        (((weekRows sampleRows ((weekStarts sampleRows).get ⟨1, by decide⟩)).getLast?).map
          DRow.ppm)
        (((weekRows sampleRows ((weekStarts sampleRows).get ⟨0, by decide⟩)).getLast?).map
          DRow.ppm)) :=
  ⟨weekly_aggregation_windows.1 10,
   weekly_aggregation_windows.2.1 sampleRows (by decide) 7,
   weekly_aggregation_windows.2.2 sampleRows (by decide) 0 (by decide)⟩
